import Mathlib

/-!
Shallow embedding of `SPORK/denovo_class_utils/Junction.py` (the single
source file of the SPACHETE repository slice under verification).

Python strings are modelled as `List Char`; Python `int` as `Int`
(`Nat` casts where the value is a length); a Python expression that can
raise (`str.index` with no occurrence, `comp[x]` on an unknown base,
unpacking `split` results of the wrong arity, `int()` on a non-numeric
string) is modelled with `Option`, `none` standing for the raised
exception.

The collaborator class `SAMEntry` is imported by `Junction.py` but its
file is not part of the source slice; it is modelled from the spec
(see `SAMEntry` below).
-/

/-- Python's `str.index`-style first-occurrence substring search, as used by
`Junction.splice_gap` via `self.consensus.index(...)`: `strIndex? hay need`
is `some i` when the first occurrence of `need` in `hay` starts at `i`, and
`none` when `need` does not occur (Python raises `ValueError` there). -/
def strIndex? (hay need : List Char) : Option Nat :=
  if need.isPrefixOf hay then some 0
  else
    match hay with
    | [] => none
    | _ :: t => (strIndex? t need).map (fun n => n + 1)

/-- `need` matches inside `hay` starting at position `i`. -/
def matchesAt (hay need : List Char) (i : Nat) : Prop :=
  need.isPrefixOf (hay.drop i) = true

instance (hay need : List Char) (i : Nat) : Decidable (matchesAt hay need i) := by
  unfold matchesAt; infer_instance

/-- `need`'s first occurrence in `hay` is at position `i`. -/
def firstOccurAt (hay need : List Char) (i : Nat) : Prop :=
  matchesAt hay need i ∧ ∀ k < i, ¬ matchesAt hay need k

instance (hay need : List Char) (i : Nat) : Decidable (firstOccurAt hay need i) := by
  unfold firstOccurAt; infer_instance

/-- The base-complement table `comp = {"A":"T","T":"A","C":"G","G":"C","N":"N"}`
of `Junction.splice_gap`; `none` models the `KeyError` raised by `comp[x]`
on any other character. -/
def comp (c : Char) : Option Char :=
  if c = 'A' then some 'T'
  else if c = 'T' then some 'A'
  else if c = 'C' then some 'G'
  else if c = 'G' then some 'C'
  else if c = 'N' then some 'N'
  else none

/-- `"".join([comp[x] for x in seq])`: complement every base, failing on the
first base outside the table. -/
def compAll : List Char → Option (List Char)
  | [] => some []
  | c :: cs =>
    match comp c, compAll cs with
    | some d, some ds => some (d :: ds)
    | _, _ => none

/-- `"".join([comp[x] for x in seq])[::-1]`: the reverse complement used by
`Junction.splice_gap` when the forward form is not found. -/
def revComp (s : List Char) : Option (List Char) :=
  (compAll s).map List.reverse

/-- Modelled from the spec: the exon-boundary annotation record (`gtf`
attribute of the alignment record), exposing `start` and `stop`
coordinates. Its defining file is not part of the source slice. -/
structure GTFEntry where
  start : Int
  stop : Int
deriving DecidableEq

/-- Modelled from the spec: the `SAMEntry` alignment-record collaborator
(imported by `Junction.py` but not part of the source slice). It exposes
`exists` (boolean presence flag), `seq`, `chromosome`, `strand`, `start`,
`stop` and an optional exon-boundary annotation `gtf`; the spec's
null-object sentinel (`SAMEntry()` with no arguments) has the `exists`
flag false and no annotation. -/
structure SAMEntry where
  «exists» : Bool
  seq : List Char
  chromosome : List Char
  strand : List Char
  start : Int
  stop : Int
  gtf : Option GTFEntry
deriving DecidableEq

/-- Modelled from the spec: the default-constructed `SAMEntry()` null object
that `Junction.__init__` stores in both anchor slots: presence flag false,
no sequence, no coordinates, no exon annotation. -/
def SAMEntry.sentinel : SAMEntry :=
  { «exists» := false, seq := [], chromosome := [], strand := [],
    start := 0, stop := 0, gtf := none }

/-- The shared run-wide configuration mapping (`constants_dict`); the
serializers read `int(self.constants_dict["splice_flank_len"])`, modelled
as the already-converted integer field. -/
structure ConstantsDict where
  splice_flank_len : Int
deriving DecidableEq

/-- The `Junction` entity of `Junction.py`. `bin_pair` is the key copied at
construction from `bin_pair_group[0]`; the group itself and the score are
not consulted by any of the queries verified here and are omitted.
The field spelling `took_reverse_compliment` follows the source. -/
structure Junction where
  consensus : List Char
  bin_pair : List Char
  took_reverse_compliment : Bool
  constants_dict : ConstantsDict
  upstream_sam : SAMEntry
  downstream_sam : SAMEntry
deriving DecidableEq

namespace Junction

/-- `Junction.splice_ind` (lines 40-53): length of the upstream anchor's
sequence when both anchors are present, otherwise `len(self.consensus)/2`
(Python 2 integer floor division on a non-negative length). -/
def splice_ind (j : Junction) : Int :=
  if j.upstream_sam.«exists» && j.downstream_sam.«exists» then
    (j.upstream_sam.seq.length : Int)
  else
    (j.consensus.length : Int) / 2

/-- The upstream-position computation of `Junction.splice_gap` (lines 73-78):
first occurrence of the forward sequence, else of its reverse complement,
plus `len(self.upstream_sam.seq)`; `none` models the exceptions
(`KeyError` from `comp`, `ValueError` from `index`). -/
def upstreamPos? (j : Junction) : Option Nat :=
  match strIndex? j.consensus j.upstream_sam.seq with
  | some i => some (i + j.upstream_sam.seq.length)
  | none =>
    match revComp j.upstream_sam.seq with
    | some r => (strIndex? j.consensus r).map (fun i => i + j.upstream_sam.seq.length)
    | none => none

/-- The downstream-position computation of `Junction.splice_gap`
(lines 80-85): first occurrence of the forward sequence, else of its
reverse complement. -/
def downstreamPos? (j : Junction) : Option Nat :=
  match strIndex? j.consensus j.downstream_sam.seq with
  | some i => some i
  | none =>
    match revComp j.downstream_sam.seq with
    | some r => strIndex? j.consensus r
    | none => none

/-- `Junction.splice_gap` (lines 57-92): `some (-1)` when at least one anchor
is absent; otherwise `upstream_pos - downstream_pos`, with `none` modelling
the unhandled exception when a lookup fails. -/
def splice_gap (j : Junction) : Option Int :=
  if j.upstream_sam.«exists» && j.downstream_sam.«exists» then
    match j.upstreamPos?, j.downstreamPos? with
    | some u, some d => some ((u : Int) - (d : Int))
    | _, _ => none
  else
    some (-1)

/-- `Junction.span` (lines 96-110): `upstream.start - downstream.stop` when
both anchors are present, else `-1`. -/
def span (j : Junction) : Int :=
  if j.upstream_sam.«exists» && j.downstream_sam.«exists» then
    j.upstream_sam.start - j.downstream_sam.stop
  else
    -1

/-- `Junction.splice_type` (lines 114-137); `none` models the exception
propagated out of `splice_gap()`. -/
def splice_type (j : Junction) : Option String :=
  if j.upstream_sam.«exists» && j.downstream_sam.«exists» then
    match j.splice_gap with
    | some g => some (if g = 0 then "Full" else "Gapped")
    | none => none
  else if j.upstream_sam.«exists» then some "Five_Only"
  else if j.downstream_sam.«exists» then some "Three_Only"
  else some "None"

/-- `Junction.boundary_dist` (lines 164-183): `stream == "upstream"` selects
the upstream anchor and its `stop` edge, ANY other string selects the
downstream anchor and its `start` edge; `-1` when the selected anchor has
no `gtf` annotation. -/
def boundary_dist (j : Junction) (stream : String) : Int :=
  let sam := if stream = "upstream" then j.upstream_sam else j.downstream_sam
  match sam.gtf with
  | some g =>
    let sam_pos := if stream = "upstream" then sam.stop else sam.start
    min (|sam_pos - g.start|) (|sam_pos - g.stop|)
  | none => -1

/-- `Junction.at_boundary` (lines 186-204): `0 <= dist <= radius`. -/
def at_boundary (j : Junction) (stream : String) (radius : Int) : Bool :=
  let dist := j.boundary_dist stream
  if 0 ≤ dist ∧ dist ≤ radius then true else false

/-- `Junction.check_fusion` (lines 141-160); both `at_boundary` calls use the
default radius 3; `span_cutoff` defaults to `1e6` in the source and is an
explicit parameter here. -/
def check_fusion (j : Junction) (span_cutoff : Int) : Bool :=
  if j.at_boundary "upstream" 3 && j.at_boundary "downstream" 3 then
    if j.upstream_sam.chromosome ≠ j.downstream_sam.chromosome then true
    else if j.upstream_sam.strand ≠ j.downstream_sam.strand then true
    else if |j.span| > span_cutoff then true
    else false
  else false

end Junction

/-- Python's `str.split(sep)` for a one-character separator, as used by
`Junction.linear` (`self.bin_pair.split("_")`, `....split(":")`):
splits at every occurrence of `sep`, keeping empty pieces. -/
def pySplit (sep : Char) : List Char → List (List Char)
  | [] => [[]]
  | c :: cs =>
    if c = sep then [] :: pySplit sep cs
    else
      match pySplit sep cs with
      | [] => [[c]]
      | x :: xs => (c :: x) :: xs

/-- Python's `int(s)` on the bin-index strings of `Junction.linear`:
an optional `-` sign followed by at least one decimal digit; `none`
models the `ValueError` on anything else. -/
def pyInt? (s : List Char) : Option Int :=
  let digits? : List Char → Option Nat := fun ds =>
    if ds ≠ [] ∧ ds.all Char.isDigit then
      some (ds.foldl (fun acc c => 10 * acc + (c.toNat - '0'.toNat)) 0)
    else none
  match s with
  | '-' :: rest => (digits? rest).map (fun n => -(n : Int))
  | _ => (digits? s).map (fun n => (n : Int))

namespace Junction

/-- `Junction.linear` (lines 207-223): unpack `bin_pair.split("_")` into
exactly three pieces (else `ValueError`), take the piece after the first
`:` of each side (else `IndexError`), convert with `int` and compare;
invert the answer when `took_reverse_compliment`. -/
def linear (j : Junction) : Option Bool :=
  match pySplit '_' j.bin_pair with
  | [five_prime_bin, three_prime_bin, _strand_info] =>
    match (pySplit ':' five_prime_bin)[1]?, (pySplit ':' three_prime_bin)[1]? with
    | some fb, some tb =>
      match pyInt? fb, pyInt? tb with
      | some fa, some ta =>
        let lin := decide (fa ≤ ta)
        some (if j.took_reverse_compliment then !lin else lin)
      | _, _ => none
    | _, _ => none
  | _ => none

/-- The `full_consensus` padding block shared verbatim by the three
serializers `fasta_MACHETE` (lines 252-260), `fasta_string` (lines 303-311)
and `verbose_fasta_string` (lines 358-366): guarded by
`if self.splice_ind() != -1`, left-pad the 5' part and right-pad the 3'
part with `N` up to `splice_flank_len`; Python's `"N"*k` is empty for
`k <= 0`, hence `Int.toNat` clamping. `none` models the guard failing
(the serializer would then emit the string `None`). -/
def full_consensus (j : Junction) : Option (List Char) :=
  if j.splice_ind ≠ -1 then
    let splice_flank_len := j.constants_dict.splice_flank_len
    let left_padding := List.replicate (splice_flank_len - j.splice_ind).toNat 'N'
    let right_padding :=
      List.replicate (splice_flank_len - ((j.consensus.length : Int) - j.splice_ind)).toNat 'N'
    let five_consensus := j.consensus.take j.splice_ind.toNat
    let three_consensus := j.consensus.drop j.splice_ind.toNat
    some (left_padding ++ five_consensus ++ three_consensus ++ right_padding)
  else none

/-- The padded consensus emitted by `Junction.fasta_MACHETE` (lines 252-260);
the block is textually identical to `full_consensus`. -/
def fasta_MACHETE_consensus (j : Junction) : Option (List Char) :=
  j.full_consensus

/-- The padded consensus emitted by `Junction.fasta_string` (lines 303-311). -/
def fasta_string_consensus (j : Junction) : Option (List Char) :=
  j.full_consensus

/-- The padded consensus emitted by `Junction.verbose_fasta_string`
(lines 358-366). -/
def verbose_fasta_string_consensus (j : Junction) : Option (List Char) :=
  j.full_consensus

end Junction

example : strIndex? "GGGCCC".data "GCC".data = some 2 := by decide

/-! ## Correctness of the first-occurrence substring search -/

theorem strIndex?_eq_some_iff (hay need : List Char) (i : Nat) :
    strIndex? hay need = some i ↔ firstOccurAt hay need i := by
  induction hay generalizing i with
  | nil =>
    rw [strIndex?]
    by_cases hp : need.isPrefixOf ([] : List Char) = true
    · rw [if_pos hp]
      constructor
      · intro h
        injection h with h
        subst h
        exact ⟨by simpa [matchesAt] using hp, fun k hk => absurd hk (Nat.not_lt_zero k)⟩
      · rintro ⟨hm, hfirst⟩
        cases i with
        | zero => rfl
        | succ n =>
          exact absurd (show matchesAt [] need 0 by simpa [matchesAt] using hp)
            (hfirst 0 (Nat.succ_pos n))
    · rw [if_neg hp]
      constructor
      · intro h; exact absurd h (by simp)
      · rintro ⟨hm, _⟩
        exact absurd (show need.isPrefixOf ([] : List Char) = true by
          simpa [matchesAt] using hm) hp
  | cons c t ih =>
    rw [strIndex?]
    by_cases hp : need.isPrefixOf (c :: t) = true
    · rw [if_pos hp]
      constructor
      · intro h
        injection h with h
        subst h
        exact ⟨by simpa [matchesAt] using hp, fun k hk => absurd hk (Nat.not_lt_zero k)⟩
      · rintro ⟨hm, hfirst⟩
        cases i with
        | zero => rfl
        | succ n =>
          exact absurd (show matchesAt (c :: t) need 0 by simpa [matchesAt] using hp)
            (hfirst 0 (Nat.succ_pos n))
    · rw [if_neg hp]
      constructor
      · intro h
        rcases Option.map_eq_some'.mp h with ⟨i', hi', rfl⟩
        rcases (ih i').mp hi' with ⟨hm, hfirst⟩
        refine ⟨by simpa [matchesAt, List.drop_succ_cons] using hm, ?_⟩
        intro k hk
        cases k with
        | zero =>
          intro hcon
          exact hp (by simpa [matchesAt] using hcon)
        | succ m =>
          intro hcon
          exact hfirst m (Nat.lt_of_succ_lt_succ hk)
            (by simpa [matchesAt, List.drop_succ_cons] using hcon)
      · rintro ⟨hm, hfirst⟩
        cases i with
        | zero => exact absurd (by simpa [matchesAt] using hm) hp
        | succ n =>
          have hm' : matchesAt t need n := by
            simpa [matchesAt, List.drop_succ_cons] using hm
          have hfirst' : ∀ k < n, ¬ matchesAt t need k := fun k hk hcon =>
            hfirst (k + 1) (Nat.succ_lt_succ hk)
              (by simpa [matchesAt, List.drop_succ_cons] using hcon)
          rw [(ih n).mpr ⟨hm', hfirst'⟩]
          rfl

theorem strIndex?_eq_none_iff (hay need : List Char) :
    strIndex? hay need = none ↔ ∀ k, ¬ matchesAt hay need k := by
  induction hay with
  | nil =>
    rw [strIndex?]
    by_cases hp : need.isPrefixOf ([] : List Char) = true
    · rw [if_pos hp]
      constructor
      · intro h; exact absurd h (by simp)
      · intro h
        exact absurd (show matchesAt [] need 0 by simpa [matchesAt] using hp) (h 0)
    · rw [if_neg hp]
      constructor
      · intro _ k hcon
        exact hp (by simpa [matchesAt, List.drop_nil] using hcon)
      · intro _; rfl
  | cons c t ih =>
    rw [strIndex?]
    by_cases hp : need.isPrefixOf (c :: t) = true
    · rw [if_pos hp]
      constructor
      · intro h; exact absurd h (by simp)
      · intro h
        exact absurd (show matchesAt (c :: t) need 0 by simpa [matchesAt] using hp) (h 0)
    · rw [if_neg hp]
      rw [Option.map_eq_none', ih]
      constructor
      · intro h k
        cases k with
        | zero =>
          intro hcon
          exact hp (by simpa [matchesAt] using hcon)
        | succ m =>
          intro hcon
          exact h m (by simpa [matchesAt, List.drop_succ_cons] using hcon)
      · intro h k hcon
        exact h (k + 1) (by simpa [matchesAt, List.drop_succ_cons] using hcon)

theorem splice_ind_nonneg (j : Junction) : 0 ≤ j.splice_ind := by
  unfold Junction.splice_ind
  split
  · positivity
  · positivity

/-! ## Claim theorems -/

/-- C3: `splice_ind()` returns the length of the upstream anchor's sequence
when both anchors are present, and otherwise the floor midpoint of the
consensus length; it never returns `-1`, so the `if splice_ind() != -1`
guard of each serializer is always true and the padded consensus is always
emitted. -/
theorem splice_ind_never_minus_one (j : Junction) :
    (j.upstream_sam.«exists» = true ∧ j.downstream_sam.«exists» = true →
      j.splice_ind = (j.upstream_sam.seq.length : Int))
    ∧ (¬(j.upstream_sam.«exists» = true ∧ j.downstream_sam.«exists» = true) →
      j.splice_ind = ((j.consensus.length / 2 : Nat) : Int))
    ∧ j.splice_ind ≠ -1
    ∧ (j.fasta_MACHETE_consensus).isSome = true
    ∧ (j.fasta_string_consensus).isSome = true
    ∧ (j.verbose_fasta_string_consensus).isSome = true := by
  have hne : j.splice_ind ≠ -1 := by
    have := splice_ind_nonneg j
    omega
  have hsome : (j.full_consensus).isSome = true := by
    rw [Junction.full_consensus, if_pos hne]
    rfl
  refine ⟨?_, ?_, hne, hsome, hsome, hsome⟩
  · rintro ⟨h1, h2⟩
    simp [Junction.splice_ind, h1, h2]
  · intro h
    have hcond : ¬(j.upstream_sam.«exists» && j.downstream_sam.«exists») = true := by
      simpa [Bool.and_eq_true] using h
    rw [Junction.splice_ind, if_neg hcond]
    omega

/-- Concrete junction for the C3 witness: both anchors absent,
consensus of odd length 5. -/
def exJ3 : Junction :=
  { consensus := "ACGTA".data
    bin_pair := "chr1:5_chr1:10_+".data
    took_reverse_compliment := false
    constants_dict := ⟨6⟩
    upstream_sam := SAMEntry.sentinel
    downstream_sam := SAMEntry.sentinel }

/-- C3 witness: at `exJ3` the midpoint branch fires (5 / 2 = 2, flooring)
and the padded consensus is emitted. -/
theorem splice_ind_never_minus_one_witness :
    exJ3.splice_ind = ((5 / 2 : Nat) : Int) ∧ exJ3.splice_ind ≠ -1
    ∧ (exJ3.fasta_MACHETE_consensus).isSome = true :=
  ⟨(splice_ind_never_minus_one exJ3).2.1 (by decide),
   (splice_ind_never_minus_one exJ3).2.2.1,
   (splice_ind_never_minus_one exJ3).2.2.2.1⟩

/-- Concrete junction for the C2 counterexample: both anchors present,
both anchor sequences occur forward in the consensus, no input error;
`span = 100 - 101 = -1` and `splice_gap = 1 - 2 = -1`. -/
def exJ2 : Junction :=
  { consensus := "ATG".data
    bin_pair := "chr1:5_chr1:10_+".data
    took_reverse_compliment := false
    constants_dict := ⟨10⟩
    upstream_sam :=
      { «exists» := true, seq := "A".data, chromosome := "chr1".data,
        strand := "+".data, start := 100, stop := 102, gtf := none }
    downstream_sam :=
      { «exists» := true, seq := "G".data, chromosome := "chr1".data,
        strand := "+".data, start := 50, stop := 101, gtf := none } }

/-- C2 counterexample: a junction with both anchors present and both anchor
sequences occurring in the consensus (no input error) for which `span()`
and `splice_gap()` nevertheless return `-1`, refuting "never return -1
when both anchors are present". -/
theorem span_and_gap_minus_one_both_present :
    exJ2.upstream_sam.«exists» = true ∧ exJ2.downstream_sam.«exists» = true
    ∧ (strIndex? exJ2.consensus exJ2.upstream_sam.seq).isSome = true
    ∧ (strIndex? exJ2.consensus exJ2.downstream_sam.seq).isSome = true
    ∧ exJ2.span = -1
    ∧ exJ2.splice_gap = some (-1) := by
  decide

/-- C2 amended: `splice_gap()` and `span()` return `-1` whenever at least one
anchor is absent; when both anchors are present, `span()` returns
`upstream.start - downstream.stop`, a genomic difference that may itself
equal `-1` (and `splice_gap()` may likewise compute `-1`), so a `-1`
result does not certify an absent anchor. -/
theorem gap_span_absent_sentinel (j : Junction) :
    (¬(j.upstream_sam.«exists» = true ∧ j.downstream_sam.«exists» = true) →
      j.splice_gap = some (-1) ∧ j.span = -1)
    ∧ (j.upstream_sam.«exists» = true ∧ j.downstream_sam.«exists» = true →
      j.span = j.upstream_sam.start - j.downstream_sam.stop) := by
  constructor
  · intro h
    have hcond : ¬(j.upstream_sam.«exists» && j.downstream_sam.«exists») = true := by
      simpa [Bool.and_eq_true] using h
    constructor
    · rw [Junction.splice_gap, if_neg hcond]
    · rw [Junction.span, if_neg hcond]
  · rintro ⟨h1, h2⟩
    rw [Junction.span, if_pos (by simp [h1, h2])]

/-- A variant of `exJ2` with the upstream anchor left in the absent sentinel
state, for the C2 amended witness. -/
def exJ2absent : Junction :=
  { exJ2 with upstream_sam := SAMEntry.sentinel }

/-- C2 amended witness: the sentinel branch at `exJ2absent` and the
both-present branch at `exJ2`. -/
theorem gap_span_absent_sentinel_witness :
    (exJ2absent.splice_gap = some (-1) ∧ exJ2absent.span = -1)
    ∧ exJ2.span = exJ2.upstream_sam.start - exJ2.downstream_sam.stop :=
  ⟨(gap_span_absent_sentinel exJ2absent).1 (by decide),
   (gap_span_absent_sentinel exJ2).2 (by decide)⟩

/-- C6: `splice_type()` case analysis — `"Full"` for both anchors present
with zero gap, `"Gapped"` for both present with a nonzero gap, `"Five_Only"`
for upstream only, `"Three_Only"` for downstream only, `"None"` for neither
(`none` would model the exception `splice_gap` can propagate, which cannot
happen when `splice_gap` returns a value). -/
theorem splice_type_cases (j : Junction) :
    (j.upstream_sam.«exists» = true ∧ j.downstream_sam.«exists» = true ∧
        j.splice_gap = some 0 → j.splice_type = some "Full")
    ∧ (∀ g : Int, j.upstream_sam.«exists» = true ∧ j.downstream_sam.«exists» = true ∧
        j.splice_gap = some g ∧ g ≠ 0 → j.splice_type = some "Gapped")
    ∧ (j.upstream_sam.«exists» = true ∧ j.downstream_sam.«exists» = false →
        j.splice_type = some "Five_Only")
    ∧ (j.upstream_sam.«exists» = false ∧ j.downstream_sam.«exists» = true →
        j.splice_type = some "Three_Only")
    ∧ (j.upstream_sam.«exists» = false ∧ j.downstream_sam.«exists» = false →
        j.splice_type = some "None") := by
  refine ⟨?_, ?_, ?_, ?_, ?_⟩
  · rintro ⟨h1, h2, hg⟩
    simp [Junction.splice_type, h1, h2, hg]
  · rintro g ⟨h1, h2, hg, hgne⟩
    simp [Junction.splice_type, h1, h2, hg, hgne]
  · rintro ⟨h1, h2⟩
    simp [Junction.splice_type, h1, h2]
  · rintro ⟨h1, h2⟩
    simp [Junction.splice_type, h1, h2]
  · rintro ⟨h1, h2⟩
    simp [Junction.splice_type, h1, h2]

/-- Concrete junction for the C6 witness: both anchors present, upstream
sequence `TAC` found at 0 (so upstream position 3), downstream sequence
`GGG` found at 3, gap `3 - 3 = 0`. -/
def exJ6 : Junction :=
  { consensus := "TACGGG".data
    bin_pair := "chr1:5_chr1:10_+".data
    took_reverse_compliment := false
    constants_dict := ⟨10⟩
    upstream_sam :=
      { «exists» := true, seq := "TAC".data, chromosome := "chr1".data,
        strand := "+".data, start := 100, stop := 103, gtf := none }
    downstream_sam :=
      { «exists» := true, seq := "GGG".data, chromosome := "chr1".data,
        strand := "+".data, start := 200, stop := 203, gtf := none } }

/-- C6 witness: `exJ6` has a zero gap and type `"Full"`; dropping its
downstream anchor gives `"Five_Only"`. -/
theorem splice_type_cases_witness :
    exJ6.splice_type = some "Full"
    ∧ ({ exJ6 with downstream_sam := SAMEntry.sentinel } : Junction).splice_type
        = some "Five_Only" :=
  ⟨(splice_type_cases exJ6).1 ⟨by decide, by decide, by decide⟩,
   (splice_type_cases { exJ6 with downstream_sam := SAMEntry.sentinel }).2.2.1
     ⟨by decide, by decide⟩⟩

/-- C7: `boundary_dist` returns the minimum absolute distance of the
anchor's relevant edge (upstream `stop`, downstream `start`) to the exon
annotation's `start`/`stop`, and `-1` without an annotation; `at_boundary`
is true iff `0 ≤ boundary_dist ≤ radius`, hence false without an
annotation and false on the absent-anchor sentinel. -/
theorem boundary_dist_at_boundary_spec (j : Junction) :
    (∀ g : GTFEntry, j.upstream_sam.gtf = some g →
      j.boundary_dist "upstream" =
        min (|j.upstream_sam.stop - g.start|) (|j.upstream_sam.stop - g.stop|))
    ∧ (j.upstream_sam.gtf = none → j.boundary_dist "upstream" = -1)
    ∧ (∀ g : GTFEntry, j.downstream_sam.gtf = some g →
      j.boundary_dist "downstream" =
        min (|j.downstream_sam.start - g.start|) (|j.downstream_sam.start - g.stop|))
    ∧ (j.downstream_sam.gtf = none → j.boundary_dist "downstream" = -1)
    ∧ (∀ (stream : String) (radius : Int), j.at_boundary stream radius = true ↔
        0 ≤ j.boundary_dist stream ∧ j.boundary_dist stream ≤ radius)
    ∧ (∀ radius : Int, j.upstream_sam.gtf = none →
        j.at_boundary "upstream" radius = false)
    ∧ (∀ radius : Int, j.downstream_sam.gtf = none →
        j.at_boundary "downstream" radius = false)
    ∧ (∀ radius : Int, j.upstream_sam = SAMEntry.sentinel →
        j.at_boundary "upstream" radius = false)
    ∧ (∀ radius : Int, j.downstream_sam = SAMEntry.sentinel →
        j.at_boundary "downstream" radius = false) := by
  have hup_none : j.upstream_sam.gtf = none → j.boundary_dist "upstream" = -1 := by
    intro hg
    simp [Junction.boundary_dist, hg]
  have hdn_none : j.downstream_sam.gtf = none → j.boundary_dist "downstream" = -1 := by
    intro hg
    simp [Junction.boundary_dist, hg]
  have hiff : ∀ (stream : String) (radius : Int), j.at_boundary stream radius = true ↔
      0 ≤ j.boundary_dist stream ∧ j.boundary_dist stream ≤ radius := by
    intro stream radius
    by_cases h : 0 ≤ j.boundary_dist stream ∧ j.boundary_dist stream ≤ radius <;>
      simp [Junction.at_boundary, h]
  have hup_false : ∀ radius : Int, j.upstream_sam.gtf = none →
      j.at_boundary "upstream" radius = false := by
    intro radius hg
    rcases Bool.eq_false_or_eq_true (j.at_boundary "upstream" radius) with h | h
    · have := (hiff "upstream" radius).mp h
      rw [hup_none hg] at this
      omega
    · exact h
  have hdn_false : ∀ radius : Int, j.downstream_sam.gtf = none →
      j.at_boundary "downstream" radius = false := by
    intro radius hg
    rcases Bool.eq_false_or_eq_true (j.at_boundary "downstream" radius) with h | h
    · have := (hiff "downstream" radius).mp h
      rw [hdn_none hg] at this
      omega
    · exact h
  refine ⟨?_, hup_none, ?_, hdn_none, hiff, hup_false, hdn_false, ?_, ?_⟩
  · intro g hg
    simp [Junction.boundary_dist, hg]
  · intro g hg
    simp [Junction.boundary_dist, hg]
  · intro radius hsen
    exact hup_false radius (by rw [hsen]; rfl)
  · intro radius hsen
    exact hdn_false radius (by rw [hsen]; rfl)

/-- Concrete junction for the C7 witness: upstream anchor annotated with an
exon at `[95, 110]`, edge `stop = 103`, distances `8` and `7`. -/
def exJ7 : Junction :=
  { exJ6 with
    upstream_sam :=
      { «exists» := true, seq := "TAC".data, chromosome := "chr1".data,
        strand := "+".data, start := 100, stop := 103,
        gtf := some { start := 95, stop := 110 } } }

/-- C7 witness: concrete boundary distance `min 8 7 = 7`, the `at_boundary`
iff at radius `7`, and falseness on the annotation-free downstream anchor. -/
theorem boundary_dist_at_boundary_spec_witness :
    exJ7.boundary_dist "upstream" = min (|(103 : Int) - 95|) (|(103 : Int) - 110|)
    ∧ (exJ7.at_boundary "upstream" 7 = true ↔
        0 ≤ exJ7.boundary_dist "upstream" ∧ exJ7.boundary_dist "upstream" ≤ 7)
    ∧ exJ7.at_boundary "downstream" 3 = false :=
  ⟨(boundary_dist_at_boundary_spec exJ7).1 { start := 95, stop := 110 } (by decide),
   (boundary_dist_at_boundary_spec exJ7).2.2.2.2.1 "upstream" 7,
   (boundary_dist_at_boundary_spec exJ7).2.2.2.2.2.2.1 3 (by decide)⟩

/-- C10: any `stream` string other than `"upstream"` (including
`"downstream"`, misspellings and the empty string) makes `boundary_dist`
and `at_boundary` fall through to the downstream anchor and its `start`
edge; no stream value is rejected. -/
theorem boundary_stream_fallthrough (j : Junction) (s : String) (hs : s ≠ "upstream") :
    j.boundary_dist s = j.boundary_dist "downstream"
    ∧ ∀ radius : Int, j.at_boundary s radius = j.at_boundary "downstream" radius := by
  have h1 : j.boundary_dist s = j.boundary_dist "downstream" := by
    simp [Junction.boundary_dist, hs]
  exact ⟨h1, fun radius => by simp [Junction.at_boundary, h1]⟩

/-- C10 witness: the misspelled stream `"downstrem"` and the empty string
both behave exactly like `"downstream"` on `exJ7`. -/
theorem boundary_stream_fallthrough_witness :
    (exJ7.boundary_dist "downstrem" = exJ7.boundary_dist "downstream"
      ∧ exJ7.at_boundary "downstrem" 3 = exJ7.at_boundary "downstream" 3)
    ∧ exJ7.boundary_dist "" = exJ7.boundary_dist "downstream" :=
  ⟨⟨(boundary_stream_fallthrough exJ7 "downstrem" (by decide)).1,
    (boundary_stream_fallthrough exJ7 "downstrem" (by decide)).2 3⟩,
   (boundary_stream_fallthrough exJ7 "" (by decide)).1⟩

example : strIndex? "AAATTT".data "GTA".data = none := by decide
example : revComp "GTA".data = some "TAC".data := by decide
example : pySplit '_' "chr1:5_chr1:10_+".data =
    ["chr1:5".data, "chr1:10".data, "+".data] := by decide
example : pyInt? "10".data = some 10 := by decide

/-- C5: `check_fusion(span_cutoff)` is true exactly when both anchors are at
a boundary (default radius 3) and the anchors differ in chromosome or in
strand or exceed the span cutoff in absolute genomic span; it is false
whenever either anchor is not at a boundary, in particular on the
absent-anchor sentinel. -/
theorem check_fusion_characterization (j : Junction) (span_cutoff : Int) :
    (j.check_fusion span_cutoff = true ↔
      j.at_boundary "upstream" 3 = true ∧ j.at_boundary "downstream" 3 = true ∧
      (j.upstream_sam.chromosome ≠ j.downstream_sam.chromosome ∨
       j.upstream_sam.strand ≠ j.downstream_sam.strand ∨
       |j.span| > span_cutoff))
    ∧ (j.at_boundary "upstream" 3 = false ∨ j.at_boundary "downstream" 3 = false →
      j.check_fusion span_cutoff = false)
    ∧ (j.upstream_sam = SAMEntry.sentinel ∨ j.downstream_sam = SAMEntry.sentinel →
      j.check_fusion span_cutoff = false) := by
  have hmain : j.check_fusion span_cutoff = true ↔
      j.at_boundary "upstream" 3 = true ∧ j.at_boundary "downstream" 3 = true ∧
      (j.upstream_sam.chromosome ≠ j.downstream_sam.chromosome ∨
       j.upstream_sam.strand ≠ j.downstream_sam.strand ∨
       |j.span| > span_cutoff) := by
    unfold Junction.check_fusion
    by_cases hb : (j.at_boundary "upstream" 3 && j.at_boundary "downstream" 3) = true
    · rw [if_pos hb]
      rw [Bool.and_eq_true] at hb
      split_ifs with h1 h2 h3
      · simp [hb, h1]
      · simp [hb, h2]
      · simp [hb, h3]
      · simp [hb, h1, h2, h3]
    · rw [if_neg hb]
      rw [Bool.and_eq_true] at hb
      push_neg at hb
      constructor
      · intro h
        exact absurd h (by simp)
      · rintro ⟨hbu, hbd, _⟩
        exact absurd hbd (hb hbu)
  have hfalse : j.at_boundary "upstream" 3 = false ∨ j.at_boundary "downstream" 3 = false →
      j.check_fusion span_cutoff = false := by
    intro h
    rcases Bool.eq_false_or_eq_true (j.check_fusion span_cutoff) with ht | ht
    · rcases hmain.mp ht with ⟨h1, h2, _⟩
      rcases h with h | h
      · rw [h1] at h
        exact absurd h (by simp)
      · rw [h2] at h
        exact absurd h (by simp)
    · exact ht
  refine ⟨hmain, hfalse, ?_⟩
  rintro (hs | hs)
  · refine hfalse (Or.inl ?_)
    have hg : j.upstream_sam.gtf = none := by rw [hs]; rfl
    exact (boundary_dist_at_boundary_spec j).2.2.2.2.2.1 3 hg
  · refine hfalse (Or.inr ?_)
    have hg : j.downstream_sam.gtf = none := by rw [hs]; rfl
    exact (boundary_dist_at_boundary_spec j).2.2.2.2.2.2.1 3 hg

/-- Concrete junction for the C5 witness, following the spec's example:
upstream `[100,120]`, downstream `[500,520]`, same chromosome and strand,
both anchors at exon boundaries (distances 2 and 1), span `-420`. -/
def exJ5 : Junction :=
  { consensus := "TACGGG".data
    bin_pair := "chr1:5_chr1:10_+".data
    took_reverse_compliment := false
    constants_dict := ⟨10⟩
    upstream_sam :=
      { «exists» := true, seq := "TAC".data, chromosome := "chr1".data,
        strand := "+".data, start := 100, stop := 120,
        gtf := some { start := 118, stop := 200 } }
    downstream_sam :=
      { «exists» := true, seq := "GGG".data, chromosome := "chr1".data,
        strand := "+".data, start := 500, stop := 520,
        gtf := some { start := 499, stop := 600 } } }

/-- `exJ5` with the downstream anchor on chromosome `chr2`. -/
def exJ5diff : Junction :=
  { exJ5 with
    downstream_sam := { exJ5.downstream_sam with chromosome := "chr2".data } }

/-- `exJ5diff` with the upstream anchor's annotation removed, so the
upstream side is no longer at a boundary. -/
def exJ5nob : Junction :=
  { exJ5diff with
    upstream_sam := { exJ5.upstream_sam with gtf := none } }

/-- `exJ5diff` with the downstream anchor replaced by the absent sentinel. -/
def exJ5sent : Junction :=
  { exJ5diff with downstream_sam := SAMEntry.sentinel }

/-- C5 witness: a cross-chromosome boundary junction is a fusion; the same
junction is not one once either anchor leaves the boundary or is absent. -/
theorem check_fusion_characterization_witness :
    exJ5diff.check_fusion 1000000 = true
    ∧ exJ5nob.check_fusion 1000000 = false
    ∧ exJ5sent.check_fusion 1000000 = false :=
  ⟨(check_fusion_characterization exJ5diff 1000000).1.mpr
      ⟨by decide, by decide, Or.inl (by decide)⟩,
   (check_fusion_characterization exJ5nob 1000000).2.1 (Or.inl (by decide)),
   (check_fusion_characterization exJ5sent 1000000).2.2 (Or.inr (by decide))⟩

/-- The spec's worked example: same chromosome, same strand, span `-420`
within the cutoff — not a fusion on span grounds alone. -/
example : exJ5.span = -420 ∧ exJ5.check_fusion 1000000 = false := by decide

/-- C4: padding law. For a splice index `i` with `0 ≤ i ≤ L` and a flank
length `F ≥ max(i, L - i)`, every serializer's padded consensus has length
exactly `2F`; when one side already exceeds `F`, the corresponding padding
is zero-length (Python's `"N"*negative == ""`) rather than an error. -/
theorem padded_consensus_length (j : Junction) :
    (0 ≤ j.splice_ind → j.splice_ind ≤ (j.consensus.length : Int) →
      max j.splice_ind ((j.consensus.length : Int) - j.splice_ind)
          ≤ j.constants_dict.splice_flank_len →
      ∃ s, j.full_consensus = some s
        ∧ j.fasta_MACHETE_consensus = some s
        ∧ j.fasta_string_consensus = some s
        ∧ j.verbose_fasta_string_consensus = some s
        ∧ (s.length : Int) = 2 * j.constants_dict.splice_flank_len)
    ∧ (j.constants_dict.splice_flank_len < j.splice_ind →
      j.full_consensus = some (j.consensus.take j.splice_ind.toNat
        ++ j.consensus.drop j.splice_ind.toNat
        ++ List.replicate (j.constants_dict.splice_flank_len
            - ((j.consensus.length : Int) - j.splice_ind)).toNat 'N'))
    ∧ (j.constants_dict.splice_flank_len < (j.consensus.length : Int) - j.splice_ind →
      j.full_consensus = some
        (List.replicate (j.constants_dict.splice_flank_len - j.splice_ind).toNat 'N'
          ++ j.consensus.take j.splice_ind.toNat
          ++ j.consensus.drop j.splice_ind.toNat)) := by
  have hne : j.splice_ind ≠ -1 := by
    have := splice_ind_nonneg j
    omega
  have hfc : j.full_consensus = some
      (List.replicate (j.constants_dict.splice_flank_len - j.splice_ind).toNat 'N'
        ++ j.consensus.take j.splice_ind.toNat
        ++ j.consensus.drop j.splice_ind.toNat
        ++ List.replicate (j.constants_dict.splice_flank_len
            - ((j.consensus.length : Int) - j.splice_ind)).toNat 'N') := by
    rw [Junction.full_consensus, if_pos hne]
  refine ⟨?_, ?_, ?_⟩
  · intro h0 hL hF
    refine ⟨_, hfc, hfc, hfc, hfc, ?_⟩
    have := splice_ind_nonneg j
    simp only [List.length_append, List.length_replicate, List.length_take,
      List.length_drop]
    push_cast
    omega
  · intro h
    have hz : (j.constants_dict.splice_flank_len - j.splice_ind).toNat = 0 := by
      omega
    rw [hfc, hz]
    simp
  · intro h
    have hz : (j.constants_dict.splice_flank_len
        - ((j.consensus.length : Int) - j.splice_ind)).toNat = 0 := by
      omega
    rw [hfc, hz]
    simp

/-- Concrete junction for the C4 witness: both anchors absent, consensus
`ACGT` (length 4, splice index 2), flank length 3. -/
def exJ4 : Junction :=
  { consensus := "ACGT".data
    bin_pair := "chr1:5_chr1:10_+".data
    took_reverse_compliment := false
    constants_dict := ⟨3⟩
    upstream_sam := SAMEntry.sentinel
    downstream_sam := SAMEntry.sentinel }

/-- `exJ4` with flank length 1, smaller than both sides. -/
def exJ4narrow : Junction :=
  { exJ4 with constants_dict := ⟨1⟩ }

/-- C4 witness: at `exJ4` every serializer emits a padded consensus of
length `2 * 3 = 6`; at `exJ4narrow` the left padding is clamped to empty. -/
theorem padded_consensus_length_witness :
    (∃ s, exJ4.full_consensus = some s
      ∧ exJ4.fasta_MACHETE_consensus = some s
      ∧ exJ4.fasta_string_consensus = some s
      ∧ exJ4.verbose_fasta_string_consensus = some s
      ∧ (s.length : Int) = 2 * exJ4.constants_dict.splice_flank_len)
    ∧ exJ4narrow.full_consensus = some (exJ4narrow.consensus.take exJ4narrow.splice_ind.toNat
        ++ exJ4narrow.consensus.drop exJ4narrow.splice_ind.toNat
        ++ List.replicate (exJ4narrow.constants_dict.splice_flank_len
            - ((exJ4narrow.consensus.length : Int) - exJ4narrow.splice_ind)).toNat 'N') :=
  ⟨(padded_consensus_length exJ4).1 (by decide) (by decide) (by decide),
   (padded_consensus_length exJ4narrow).2.1 (by decide)⟩

/-! ## Splitting lemmas for the bin-pair parser -/

theorem pySplit_not_mem (sep : Char) (a : List Char) (h : sep ∉ a) :
    pySplit sep a = [a] := by
  induction a with
  | nil => rfl
  | cons c cs ih =>
    have hc : ¬(c = sep) := fun hcc => h (hcc ▸ List.mem_cons_self c cs)
    have hcs : sep ∉ cs := fun hm => h (List.mem_cons_of_mem c hm)
    rw [pySplit, if_neg hc, ih hcs]

theorem pySplit_append (sep : Char) (a rest : List Char) (h : sep ∉ a) :
    pySplit sep (a ++ sep :: rest) = a :: pySplit sep rest := by
  induction a with
  | nil => simp [pySplit]
  | cons c cs ih =>
    have hc : ¬(c = sep) := fun hcc => h (hcc ▸ List.mem_cons_self c cs)
    have hcs : sep ∉ cs := fun hm => h (List.mem_cons_of_mem c hm)
    rw [List.cons_append, pySplit, if_neg hc, ih hcs]

/-- Toggling `took_reverse_compliment` while holding `bin_pair` fixed negates
`linear()` (and preserves a parse failure). -/
theorem linear_toggle (j j' : Junction) (h1 : j'.bin_pair = j.bin_pair)
    (h2 : j'.took_reverse_compliment = !j.took_reverse_compliment) :
    j'.linear = Option.map (fun x => !x) j.linear := by
  unfold Junction.linear
  rw [h1, h2]
  rcases hsp : pySplit '_' j.bin_pair with _ | ⟨x, _ | ⟨y, _ | ⟨z, _ | ⟨w, ws⟩⟩⟩⟩
  · rfl
  · rfl
  · rfl
  · rcases hfx : (pySplit ':' x)[1]? with _ | fb
    · simp [hfx]
    · rcases hfy : (pySplit ':' y)[1]? with _ | tb
      · simp [hfx, hfy]
      · rcases hfa : pyInt? fb with _ | fa
        · simp [hfx, hfy, hfa]
        · rcases hfb : pyInt? tb with _ | ta
          · simp [hfx, hfy, hfa, hfb]
          · simp only [hfx, hfy, hfa, hfb]
            cases j.took_reverse_compliment <;> simp
  · rfl

/-- C8: `linear()` parses `bin_pair` as `"chrA:binA_chrB:binB_strand"` and is
true iff `binA ≤ binB` numerically, inverted when `took_reverse_compliment`;
two junctions identical except for that flag have exactly negated
`linear()` results. -/
theorem linear_spec (j : Junction)
    (chrA binA chrB binB strand : List Char) (a b : Int)
    (hbp : j.bin_pair = chrA ++ ':' :: binA ++ '_' :: (chrB ++ ':' :: binB) ++ '_' :: strand)
    (hA_us : '_' ∉ chrA) (hA_col : ':' ∉ chrA)
    (hbinA_us : '_' ∉ binA) (hbinA_col : ':' ∉ binA)
    (hB_us : '_' ∉ chrB) (hB_col : ':' ∉ chrB)
    (hbinB_us : '_' ∉ binB) (hbinB_col : ':' ∉ binB)
    (hS_us : '_' ∉ strand)
    (ha : pyInt? binA = some a) (hb : pyInt? binB = some b) :
    j.linear = some (if j.took_reverse_compliment then !(decide (a ≤ b)) else decide (a ≤ b))
    ∧ (∀ j' : Junction, j'.bin_pair = j.bin_pair →
        j'.took_reverse_compliment = !j.took_reverse_compliment →
        j'.linear = Option.map (fun x => !x) j.linear) := by
  have h5us : '_' ∉ chrA ++ ':' :: binA := by
    intro hmem
    rcases List.mem_append.mp hmem with h | h
    · exact hA_us h
    · rcases List.mem_cons.mp h with h | h
      · exact absurd h (by decide)
      · exact hbinA_us h
  have h3us : '_' ∉ chrB ++ ':' :: binB := by
    intro hmem
    rcases List.mem_append.mp hmem with h | h
    · exact hB_us h
    · rcases List.mem_cons.mp h with h | h
      · exact absurd h (by decide)
      · exact hbinB_us h
  have hsplit : pySplit '_' j.bin_pair
      = [chrA ++ ':' :: binA, chrB ++ ':' :: binB, strand] := by
    rw [hbp]
    rw [show chrA ++ ':' :: binA ++ '_' :: (chrB ++ ':' :: binB) ++ '_' :: strand
        = (chrA ++ ':' :: binA) ++ '_' :: ((chrB ++ ':' :: binB) ++ '_' :: strand) by
      simp]
    rw [pySplit_append '_' _ _ h5us, pySplit_append '_' _ _ h3us,
      pySplit_not_mem '_' strand hS_us]
  have hfive : (pySplit ':' (chrA ++ ':' :: binA))[1]? = some binA := by
    rw [pySplit_append ':' chrA binA hA_col, pySplit_not_mem ':' binA hbinA_col]
    rfl
  have hthree : (pySplit ':' (chrB ++ ':' :: binB))[1]? = some binB := by
    rw [pySplit_append ':' chrB binB hB_col, pySplit_not_mem ':' binB hbinB_col]
    rfl
  have hlin : j.linear
      = some (if j.took_reverse_compliment then !(decide (a ≤ b)) else decide (a ≤ b)) := by
    unfold Junction.linear
    rw [hsplit]
    dsimp only
    rw [hfive, hthree]
    dsimp only
    rw [ha, hb]
  exact ⟨hlin, fun j' h1 h2 => linear_toggle j j' h1 h2⟩

/-- Concrete junction for the C8 witness, using the spec's example key
`"chr1:5_chr1:10_+"` with the orientation flag off. -/
def exJ8 : Junction :=
  { consensus := "TACGGG".data
    bin_pair := "chr1:5_chr1:10_+".data
    took_reverse_compliment := false
    constants_dict := ⟨10⟩
    upstream_sam := SAMEntry.sentinel
    downstream_sam := SAMEntry.sentinel }

/-- `exJ8` with the orientation flag on. -/
def exJ8rc : Junction :=
  { exJ8 with took_reverse_compliment := true }

/-- C8 witness: on `"chr1:5_chr1:10_+"` the junction is linear (`5 ≤ 10`),
and flipping `took_reverse_compliment` negates the result. -/
theorem linear_spec_witness :
    exJ8.linear = some (if exJ8.took_reverse_compliment
        then !(decide ((5 : Int) ≤ 10)) else decide ((5 : Int) ≤ 10))
    ∧ exJ8rc.linear = Option.map (fun x => !x) exJ8.linear :=
  let h := linear_spec exJ8 "chr1".data "5".data "chr1".data "10".data "+".data 5 10
    (by decide) (by decide) (by decide) (by decide) (by decide) (by decide)
    (by decide) (by decide) (by decide) (by decide) (by decide) (by decide)
  ⟨h.1, h.2 exJ8rc (by decide) (by decide)⟩

/-- C1: with both anchors present, `splice_gap()` equals (position
immediately after the upstream anchor's match in the consensus) minus
(position immediately before the downstream anchor's match), where each
anchor is located at its first forward occurrence, or — when the forward
form is absent everywhere — at the first occurrence of its reverse
complement under `A↔T, C↔G, N↔N`. -/
theorem splice_gap_locates_anchors (j : Junction) (iu idn : Nat)
    (hu : j.upstream_sam.«exists» = true) (hd : j.downstream_sam.«exists» = true)
    (hup : firstOccurAt j.consensus j.upstream_sam.seq iu ∨
      ((∀ k, ¬ matchesAt j.consensus j.upstream_sam.seq k) ∧
        ∃ ru, revComp j.upstream_sam.seq = some ru ∧ firstOccurAt j.consensus ru iu))
    (hdn : firstOccurAt j.consensus j.downstream_sam.seq idn ∨
      ((∀ k, ¬ matchesAt j.consensus j.downstream_sam.seq k) ∧
        ∃ rd, revComp j.downstream_sam.seq = some rd ∧ firstOccurAt j.consensus rd idn)) :
    j.splice_gap = some (((iu + j.upstream_sam.seq.length : Nat) : Int) - ((idn : Nat) : Int)) := by
  have hupos : j.upstreamPos? = some (iu + j.upstream_sam.seq.length) := by
    unfold Junction.upstreamPos?
    rcases hup with h | ⟨hnone, ru, hru, hocc⟩
    · rw [(strIndex?_eq_some_iff _ _ _).mpr h]
    · rw [(strIndex?_eq_none_iff _ _).mpr hnone, hru]
      dsimp only
      rw [(strIndex?_eq_some_iff _ _ _).mpr hocc]
      rfl
  have hdpos : j.downstreamPos? = some idn := by
    unfold Junction.downstreamPos?
    rcases hdn with h | ⟨hnone, rd, hrd, hocc⟩
    · rw [(strIndex?_eq_some_iff _ _ _).mpr h]
    · rw [(strIndex?_eq_none_iff _ _).mpr hnone, hrd]
      dsimp only
      rw [(strIndex?_eq_some_iff _ _ _).mpr hocc]
  rw [Junction.splice_gap, if_pos (by simp [hu, hd]), hupos, hdpos]

/-- Concrete junction for the C1 witness: the upstream anchor sequence `GTA`
occurs in the consensus `TACGGG` only as its reverse complement `TAC`
(at position 0); the downstream sequence `GGG` occurs forward at 3. -/
def exJ1 : Junction :=
  { consensus := "TACGGG".data
    bin_pair := "chr1:5_chr1:10_+".data
    took_reverse_compliment := false
    constants_dict := ⟨10⟩
    upstream_sam :=
      { «exists» := true, seq := "GTA".data, chromosome := "chr1".data,
        strand := "+".data, start := 100, stop := 103, gtf := none }
    downstream_sam :=
      { «exists» := true, seq := "GGG".data, chromosome := "chr1".data,
        strand := "+".data, start := 200, stop := 203, gtf := none } }

/-- C1 witness: a consensus containing only the reverse-complement form of
the upstream anchor is still resolved, giving gap `(0 + 3) - 3 = 0`. -/
theorem splice_gap_locates_anchors_witness :
    exJ1.splice_gap
      = some (((0 + exJ1.upstream_sam.seq.length : Nat) : Int) - ((3 : Nat) : Int)) :=
  splice_gap_locates_anchors exJ1 0 3 (by decide) (by decide)
    (Or.inr ⟨(strIndex?_eq_none_iff exJ1.consensus exJ1.upstream_sam.seq).mp (by decide),
      "TAC".data, by decide, by decide⟩)
    (Or.inl (by decide))

/-- C9: with both anchors present, when neither the forward form nor the
reverse complement of an anchor's sequence occurs anywhere in the
consensus, `splice_gap()` fails with the lookup error (modelled `none`)
instead of returning the `-1` sentinel. -/
theorem splice_gap_lookup_error (j : Junction)
    (hu : j.upstream_sam.«exists» = true) (hd : j.downstream_sam.«exists» = true)
    (habs : ((∀ k, ¬ matchesAt j.consensus j.upstream_sam.seq k) ∧
        ∃ ru, revComp j.upstream_sam.seq = some ru ∧
          ∀ k, ¬ matchesAt j.consensus ru k)
      ∨ ((∀ k, ¬ matchesAt j.consensus j.downstream_sam.seq k) ∧
        ∃ rd, revComp j.downstream_sam.seq = some rd ∧
          ∀ k, ¬ matchesAt j.consensus rd k)) :
    j.splice_gap = none ∧ j.splice_gap ≠ some (-1) := by
  rcases habs with ⟨hnone, ru, hru, hrnone⟩ | ⟨hnone, rd, hrd, hrnone⟩
  · have hupos : j.upstreamPos? = none := by
      unfold Junction.upstreamPos?
      rw [(strIndex?_eq_none_iff _ _).mpr hnone, hru]
      dsimp only
      rw [(strIndex?_eq_none_iff _ _).mpr hrnone]
      rfl
    have hsg : j.splice_gap = none := by
      rw [Junction.splice_gap, if_pos (by simp [hu, hd]), hupos]
    exact ⟨hsg, by simp [hsg]⟩
  · have hdpos : j.downstreamPos? = none := by
      unfold Junction.downstreamPos?
      rw [(strIndex?_eq_none_iff _ _).mpr hnone, hrd]
      dsimp only
      rw [(strIndex?_eq_none_iff _ _).mpr hrnone]
    have hsg : j.splice_gap = none := by
      rw [Junction.splice_gap, if_pos (by simp [hu, hd]), hdpos]
      cases j.upstreamPos? <;> rfl
    exact ⟨hsg, by simp [hsg]⟩

/-- Concrete junction for the C9 witness: the upstream sequence `AC` occurs
in the consensus `GGG` neither forward nor as its reverse complement `GT`. -/
def exJ9 : Junction :=
  { consensus := "GGG".data
    bin_pair := "chr1:5_chr1:10_+".data
    took_reverse_compliment := false
    constants_dict := ⟨10⟩
    upstream_sam :=
      { «exists» := true, seq := "AC".data, chromosome := "chr1".data,
        strand := "+".data, start := 100, stop := 102, gtf := none }
    downstream_sam :=
      { «exists» := true, seq := "G".data, chromosome := "chr1".data,
        strand := "+".data, start := 200, stop := 201, gtf := none } }

/-- C9 witness: the lookup failure at `exJ9` is the modelled exception,
not the `-1` sentinel. -/
theorem splice_gap_lookup_error_witness :
    exJ9.splice_gap = none ∧ exJ9.splice_gap ≠ some (-1) :=
  splice_gap_lookup_error exJ9 (by decide) (by decide)
    (Or.inl ⟨(strIndex?_eq_none_iff exJ9.consensus exJ9.upstream_sam.seq).mp (by decide),
      "GT".data, by decide,
      (strIndex?_eq_none_iff exJ9.consensus "GT".data).mp (by decide)⟩)
